import Mathlib

/-!
Shallow embedding of the multi-account message-sender core
(src/telegram_multi_sender.py and the round-robin dispatch loop of
src/telegram_multi_sender_gui.py).

External effects (network calls of the protocol client, the HTTP fetch,
the file system) are modelled by explicit environments whose fields give
the outcome of each external call: a call that can raise an exception is
modelled as `Except String α`, where `.error e` is a raised exception
carrying the text `e`.  Mutable object state (the account dictionary, the
client cache) is passed explicitly.  Python dictionaries are modelled as
association lists with unique keys, in insertion order.
-/

namespace TGMS

/-- Whitespace as Python's `str.strip` / regex `\s` treat it on ASCII text:
space, tab, newline, carriage return, vertical tab, form feed. -/
def pyIsSpace (c : Char) : Bool :=
  c = ' ' || c = '\t' || c = '\n' || c = '\r' || c = '\x0b' || c = '\x0c'

/-- Drop leading whitespace (the left half of Python `str.strip`). -/
def lstripWS (cs : List Char) : List Char := cs.dropWhile pyIsSpace

/-- Drop trailing whitespace (the right half of Python `str.strip`). -/
def rstripWS (cs : List Char) : List Char := (lstripWS cs.reverse).reverse

/-- Python `str.strip()` on a list of characters. -/
def stripList (cs : List Char) : List Char := rstripWS (lstripWS cs)

/-- Python `str.strip()`. -/
def pyStrip (s : String) : String := String.mk (stripList s.toList)

/-- Python `phone.startswith('+')` on a list of characters. -/
def startsPlus (cs : List Char) : Bool :=
  match cs with
  | [] => false
  | c :: _ => c = '+'

/-- Core of `AccountManager._normalize_phone`: strip surrounding
whitespace, then prepend `+` when absent. -/
def normChars (cs : List Char) : List Char :=
  let t := stripList cs
  if startsPlus t then t else '+' :: t

/-- `AccountManager._normalize_phone(phone)`. -/
def normalize_phone (s : String) : String := String.mk (normChars s.toList)

/-- The `TelegramAccount` dataclass. -/
structure TelegramAccount where
  phone : String
  session_file : String
  api_url : String := ""
  name : String := ""
  username : String := ""
  user_id : Int := 0
  logged_in : Bool := false
  last_active : String := ""
deriving DecidableEq, Repr

/-- Python `dict` lookup `d.get(k)` on an association list. -/
def dictGet {α : Type} (l : List (String × α)) (k : String) : Option α :=
  match l with
  | [] => none
  | (k1, v) :: t => if k1 = k then some v else dictGet t k

/-- Python `dict` assignment `d[k] = v`: overwrite in place if the key is
present, otherwise append at the end (insertion order). -/
def dictInsert {α : Type} (k : String) (v : α) :
    List (String × α) → List (String × α)
  | [] => [(k, v)]
  | (k1, v1) :: t =>
      if k1 = k then (k, v) :: t else (k1, v1) :: dictInsert k v t

/-- Python `d.pop(k)` for a key known to be present in a `dict` (keys are
unique, so removing every binding of `k` removes exactly the one entry). -/
def dictPop {α : Type} (l : List (String × α)) (k : String) :
    List (String × α) :=
  l.filter (fun p => p.1 ≠ k)

/-! ### Connection cache and the send primitives (`AccountManager.get_client`,
`MultiSender.send_from_account`, `MultiSender.send_to_multiple`) -/

/-- Outcomes of the protocol client's external calls.  `is_connected` is
keyed by the phone of a cached client; `connect` / `is_user_authorized`
are keyed by the session file a fresh client is bound to; `send_message`
is keyed by the resolved client's phone, the target and the message.
An `Except.error e` models the call raising an exception with text `e`. -/
structure NetEnv where
  is_connected : String → Bool
  connect : String → Except String Unit
  is_user_authorized : String → Except String Bool
  send_message : String → String → String → Except String Unit

/-- The mutable state `get_client` touches: the account dictionary and the
client cache (the set of phones with a cached client handle). -/
structure ManagerState where
  accounts : List (String × TelegramAccount)
  clients : List String
deriving DecidableEq, Repr

/-- Cache a client handle under its phone (`self.clients[phone] = client`). -/
def cacheClient (phone : String) (clients : List String) : List String :=
  if clients.contains phone then clients else clients ++ [phone]

/-- `AccountManager.get_client(phone)`.  A returned client is identified by
its (normalized) phone.  The `connect` and `is_user_authorized` calls sit
outside any try/except in the source, so an exception there propagates:
it is the `.error` case of the result.  (The source picks the opentele
client class when `"tdata_"` occurs in the session file; both classes are
driven through the same `connect`/`is_user_authorized` calls, which is
what the environment models.) -/
def get_client (env : NetEnv) (st : ManagerState) (phone0 : String) :
    Except String (Option String × ManagerState) :=
  let phone := normalize_phone phone0
  if st.clients.contains phone && env.is_connected phone then
    .ok (some phone, st)
  else
    match dictGet st.accounts phone with
    | none => .ok (none, st)
    | some account =>
      match env.connect account.session_file with
      | .error e => .error e
      | .ok _ =>
        match env.is_user_authorized account.session_file with
        | .error e => .error e
        | .ok true =>
            .ok (some phone, { st with clients := cacheClient phone st.clients })
        | .ok false => .ok (none, st)

/-- `MultiSender.send_from_account(phone, target, message)`.  The
`get_client` call is outside the try/except, so an exception raised while
resolving the client propagates (`.error`); only the `send_message` call
is guarded. -/
def send_from_account (env : NetEnv) (st : ManagerState)
    (phone target message : String) :
    Except String ((Bool × String) × ManagerState) :=
  match get_client env st phone with
  | .error e => .error e
  | .ok (none, st1) => .ok ((false, "账号 " ++ phone ++ " 未登录"), st1)
  | .ok (some cl, st1) =>
    match env.send_message cl target message with
    | .ok _ => .ok ((true, "[" ++ phone ++ "] 发送成功"), st1)
    | .error e => .ok ((false, "[" ++ phone ++ "] 发送失败: " ++ e), st1)

/-- The per-target loop of `MultiSender.send_to_multiple`: each send is
guarded by its own try/except and appends `(target, success)`. -/
def send_targets_loop (env : NetEnv) (cl message : String) :
    List String → List (String × Bool)
  | [] => []
  | t :: rest =>
    match env.send_message cl t message with
    | .ok _ => (t, true) :: send_targets_loop env cl message rest
    | .error _ => (t, false) :: send_targets_loop env cl message rest

/-- `MultiSender.send_to_multiple(phone, targets, message)`.  When no
client can be resolved the source returns `[]`. -/
def send_to_multiple (env : NetEnv) (st : ManagerState)
    (phone : String) (targets : List String) (message : String) :
    Except String (List (String × Bool) × ManagerState) :=
  match get_client env st phone with
  | .error e => .error e
  | .ok (none, st1) => .ok ([], st1)
  | .ok (some cl, st1) => .ok (send_targets_loop env cl message targets, st1)

/-! ### The GUI round-robin dispatch loop
(`TelegramSenderPro._start_send.do_send` and `_stop_send`) -/

/-- `acc.name if acc and acc.name else phone` after
`acc = self.manager.accounts.get(phone)`. -/
def accDisplayName (accounts : List (String × TelegramAccount))
    (phone : String) : String :=
  match dictGet accounts phone with
  | some a => if a.name ≠ "" then a.name else phone
  | none => phone

/-- The log line `do_send` builds for one send. -/
def sendLogMsg (acc_name target : String) (success : Bool) (msg : String) :
    String :=
  let base := "[" ++ acc_name ++ "] → @" ++ target ++ ": "
      ++ (if success then "成功" else "失败")
  if success = false && msg ≠ "" then base ++ " (" ++ msg ++ ")" else base

/-- The loop body of `do_send`.  `flag i` is the value of `self.sending`
read by the single per-iteration check at the top of iteration `i`
(`_stop_send`, running on another thread, may flip it between reads);
`send phone target` is the `(success, msg)` outcome of the one send call
of that iteration (text or voice).  The phone is
`selected[i % len(selected)]`; the loop breaks as soon as a check reads
the flag as cleared, and a send that has started always completes and is
recorded. -/
def sendLoop (flag : Nat → Bool) (send : String → String → Bool × String)
    (accounts : List (String × TelegramAccount)) (selected : List String) :
    Nat → List String → List (String × String × Bool × String)
  | _, [] => []
  | i, t :: rest =>
    if flag i then
      let phone := selected.getD (i % selected.length) ""
      let r := send phone t
      let entry := (phone, t, r.1,
        sendLogMsg (accDisplayName accounts phone) t r.1 r.2)
      entry :: sendLoop flag send accounts selected (i + 1) rest
    else []

/-- `do_send` of `TelegramSenderPro._start_send`: the recorded results of
the round-robin dispatch over the flat target list. -/
def do_send (flag : Nat → Bool) (send : String → String → Bool × String)
    (accounts : List (String × TelegramAccount)) (selected : List String)
    (targets : List String) : List (String × String × Bool × String) :=
  sendLoop flag send accounts selected 0 targets

/-- The account/target assignment a dispatch run performs, in order. -/
def assignmentOf (rs : List (String × String × Bool × String)) :
    List (String × String) :=
  rs.map (fun r => (r.1, r.2.1))

/-! ### Verification-code extraction (`AccountManager._fetch_code_from_url`)

The source scans the response body with `re.search` against the ordered
pattern list `[r'(?:code|验证码|Code)[:\s]*(\d{5,6})', r'(\d{5,6})']`
(IGNORECASE), returning group 1 of the first pattern that matches.
`re.search` tries start positions left to right; at one position the
pattern is deterministic: the keyword alternation (`Code` is subsumed by
`code` under IGNORECASE), a maximal run of `[:\s]` separators — giving a
separator back can never help since a separator is not a digit — and a
greedy `\d{5,6}`, which matches the first `min(6, run length)` digits of
a digit run of length at least 5. -/

/-- A character of the separator class `[:\s]`. -/
def isSepChar (c : Char) : Bool := c = ':' || pyIsSpace c

/-- Length of the leading digit run (`\d` on ASCII text). -/
def leadingDigits (cs : List Char) : Nat :=
  (cs.takeWhile Char.isDigit).length

/-- Greedy `\d{5,6}` anchored at the head: group 1 of the match, if any. -/
def matchDigits56 (cs : List Char) : Option String :=
  if 5 ≤ leadingDigits cs then
    some (String.mk ((cs.takeWhile Char.isDigit).take 6))
  else none

/-- The keyword alternation `(?:code|验证码|Code)` with IGNORECASE,
anchored at the head; returns the rest of the text after the keyword. -/
def matchKeyword (cs : List Char) : Option (List Char) :=
  match cs with
  | c1 :: c2 :: c3 :: c4 :: rest =>
      if c1.toLower = 'c' && c2.toLower = 'o' && c3.toLower = 'd'
          && c4.toLower = 'e' then
        some rest
      else if c1 = '验' && c2 = '证' && c3 = '码' then some (c4 :: rest)
      else none
  | c1 :: c2 :: c3 :: rest =>
      if c1 = '验' && c2 = '证' && c3 = '码' then some rest else none
  | _ => none

/-- The labeled pattern `(?:code|验证码|Code)[:\s]*(\d{5,6})` anchored at
the head: keyword, maximal separator run, then the digit group. -/
def matchLabeledAt (cs : List Char) : Option String :=
  match matchKeyword cs with
  | none => none
  | some rest => matchDigits56 (rest.dropWhile isSepChar)

/-- `re.search` of the labeled pattern: leftmost start position wins. -/
def searchLabeled : List Char → Option String
  | [] => none
  | c :: t =>
    match matchLabeledAt (c :: t) with
    | some s => some s
    | none => searchLabeled t

/-- `re.search` of the bare pattern `(\d{5,6})`. -/
def searchBare : List Char → Option String
  | [] => none
  | c :: t =>
    match matchDigits56 (c :: t) with
    | some s => some s
    | none => searchBare t

/-- The pattern loop of `_fetch_code_from_url` over the response body:
first pattern that matches wins; no match is the distinct
"未找到验证码" ("code not found") failure.  Result is `(code, error)`. -/
def extract_code (text : String) : Option String × Option String :=
  match searchLabeled text.toList with
  | some code => (some code, none)
  | none =>
    match searchBare text.toList with
    | some code => (some code, none)
    | none => (none, some "未找到验证码")

/-- `AccountManager._fetch_code_from_url(url)`, with the HTTP GET modelled
by its outcome: an exception, or a status code and a body. -/
def fetch_code_from_url (resp : Except String (Nat × String)) :
    Option String × Option String :=
  match resp with
  | .error e => (none, some e)
  | .ok (status, text) =>
    if status ≠ 200 then (none, some ("HTTP " ++ toString status))
    else extract_code text

/-- Whether the text contains 5 consecutive digit characters anywhere
(equivalently: a digit run of length 5 or 6 — a longer run contains one). -/
def hasRun5 : List Char → Bool
  | [] => false
  | c :: t => (5 ≤ leadingDigits (c :: t)) || hasRun5 t

/-! ### Loading the account store (`AccountManager._load_accounts`)

The durable file is modelled by what reading it yields:
`none` — the file does not exist (`os.path.exists` is false);
`some (.error e)` — opening/`json.load` raises `e`;
`some (.ok entries)` — the parsed top-level dict in insertion order, where
each entry's value is the outcome of `TelegramAccount(**info)` — `.error e`
when that constructor call raises (e.g. a missing or unexpected key).
The whole read-and-fill block sits in one try/except, so a record that
raises aborts the loop but keeps the records already inserted. -/

/-- The `for phone, info in data.items()` fill loop, accumulating into the
(initially empty) account dict; result is `(accounts, reported error)`. -/
def loadEntries :
    List (String × Except String TelegramAccount) →
    List (String × TelegramAccount) →
    List (String × TelegramAccount) × Option String
  | [], acc => (acc, none)
  | (phone, .ok a) :: rest, acc => loadEntries rest (dictInsert phone a acc)
  | (_, .error e) :: _, acc => (acc, some ("加载账号失败: " ++ e))

/-- `AccountManager._load_accounts()`: the in-memory store it produces and
the failure message it prints, if any. -/
def load_accounts
    (file : Option (Except String (List (String × Except String TelegramAccount)))) :
    List (String × TelegramAccount) × Option String :=
  match file with
  | none => ([], none)
  | some (.error e) => ([], some ("加载账号失败: " ++ e))
  | some (.ok entries) => loadEntries entries []

/-! ### Deleting an account (`AccountManager.remove_account`) -/

/-- File-system outcomes for `remove_account`: `exists_file` is
`os.path.exists`, `remove` the outcome of `os.remove` (which can raise). -/
structure RemoveFS where
  exists_file : String → Bool
  remove : String → Except String Unit

/-- What one `remove_account` call did: the account dict afterwards, the
paths `os.remove` was called on, whether `_save_accounts()` ran, and the
exception that propagated to the caller, if any. -/
structure RemoveOutcome where
  accounts : List (String × TelegramAccount)
  removeCalls : List String
  saved : Bool
  exn : Option String
deriving Repr

/-- `AccountManager.remove_account(phone)`.  The `os.remove` call is not
guarded: when it raises, the record has already been popped from the
in-memory dict but `_save_accounts()` is never reached and the exception
propagates. -/
def remove_account (fs : RemoveFS)
    (accounts : List (String × TelegramAccount)) (phone0 : String) :
    RemoveOutcome :=
  let phone := normalize_phone phone0
  match dictGet accounts phone with
  | none => ⟨accounts, [], false, none⟩
  | some acc =>
    let accounts1 := dictPop accounts phone
    let path := acc.session_file ++ ".session"
    if fs.exists_file path then
      match fs.remove path with
      | .error e => ⟨accounts1, [path], false, some e⟩
      | .ok _ => ⟨accounts1, [path], true, none⟩
    else ⟨accounts1, [], true, none⟩

/-! ### Importing from Telegram Desktop (`AccountManager.import_from_tdata`) -/

/-- The profile returned by `client.get_me()`. -/
structure Me where
  phone : Option String
  id : Int
  first_name : Option String
  last_name : Option String
  username : Option String
deriving Repr

/-- One account enumerated from the tdata directory (`td.accounts[i]`). -/
structure TDAccount where
  UserId : Int
deriving Repr

/-- Outcomes of the external calls made while importing, per account
index `i`: `fromTDesktop` is `OTelegramClient.FromTDesktop` (the handle
creation/conversion), then `connect`, `is_user_authorized`, `get_me` and
`disconnect` on that handle; each may raise.  `load_tdesktop` is
`TDesktop(tdata_path)` yielding the enumerated accounts; `now` is
`datetime.now().isoformat()`. -/
structure ImportEnv where
  opentele_available : Bool
  opentele_error : String
  tdata_path : String
  path_exists : Bool
  load_tdesktop : Except String (List TDAccount)
  fromTDesktop : Nat → Except String Unit
  connect : Nat → Except String Unit
  is_user_authorized : Nat → Except String Bool
  get_me : Nat → Except String Me
  disconnect : Nat → Except String Unit
  now : String

/-- The failure entry recorded by the per-account except handler. -/
def importFailMsg (i : Nat) (e : String) : Bool × String :=
  (false, "导入账号 " ++ toString (i + 1) ++ " 失败: " ++ e)

/-- The session file path `os.path.join(SESSION_DIR, f"tdata_{UserId}")`
(relative to the script's directory). -/
def tdataSessionFile (uid : Int) : String :=
  "telegram_sessions/tdata_" ++ toString uid

/-- The phone key derived on import:
`f"+{me.phone}" if me.phone else f"id_{me.id}"`. -/
def importPhoneOf (me : Me) : String :=
  match me.phone with
  | some p => "+" ++ p
  | none => "id_" ++ toString me.id

/-- The account record built for an authorized imported account. -/
def importAccountOf (me : Me) (uid : Int) (now : String) : TelegramAccount :=
  { phone := importPhoneOf me
    session_file := tdataSessionFile uid
    api_url := ""
    name := pyStrip ((me.first_name.getD "") ++ " " ++ (me.last_name.getD ""))
    username := me.username.getD ""
    user_id := me.id
    logged_in := true
    last_active := now }

/-- The body of one iteration of the import loop, including its
try/except: result entry, account dict afterwards, and the indices of the
`disconnect` calls attempted (the except handler disconnects a created
handle once more, swallowing errors).  On the authorized path the record
is stored *before* the disconnect, so a disconnect exception leaves the
record in the dict but records a failure entry. -/
def import_one (env : ImportEnv) (i : Nat) (acc : TDAccount)
    (accounts : List (String × TelegramAccount)) :
    (Bool × String) × List (String × TelegramAccount) × List Nat :=
  match env.fromTDesktop i with
  | .error e => (importFailMsg i e, accounts, [])
  | .ok _ =>
    match env.connect i with
    | .error e => (importFailMsg i e, accounts, [i])
    | .ok _ =>
      match env.is_user_authorized i with
      | .error e => (importFailMsg i e, accounts, [i])
      | .ok false =>
        match env.disconnect i with
        | .ok _ =>
            ((false, "账号 " ++ toString acc.UserId ++ " 未授权"), accounts, [i])
        | .error e => (importFailMsg i e, accounts, [i, i])
      | .ok true =>
        match env.get_me i with
        | .error e => (importFailMsg i e, accounts, [i])
        | .ok me =>
          let record := importAccountOf me acc.UserId env.now
          let phone := record.phone
          let accounts1 := dictInsert phone record accounts
          match env.disconnect i with
          | .ok _ =>
              ((true, "导入成功: " ++ record.name ++ " (@" ++ record.username
                  ++ ") - " ++ phone),
                accounts1, [i])
          | .error e => (importFailMsg i e, accounts1, [i, i])

/-- The `for i, acc in enumerate(td.accounts)` loop. -/
def import_loop (env : ImportEnv) :
    Nat → List TDAccount → List (String × TelegramAccount) →
    List (Bool × String) × List (String × TelegramAccount) × List Nat
  | _, [], accounts => ([], accounts, [])
  | i, acc :: rest, accounts =>
    let step := import_one env i acc accounts
    let next := import_loop env (i + 1) rest step.2.1
    (step.1 :: next.1, next.2.1, step.2.2 ++ next.2.2)

/-- `AccountManager.import_from_tdata(tdata_path)`: the result list, the
account dict afterwards, and whether `_save_accounts()` ran. -/
def import_from_tdata (env : ImportEnv)
    (accounts : List (String × TelegramAccount)) :
    List (Bool × String) × List (String × TelegramAccount) × Bool :=
  if env.opentele_available = false then
    ([(false, "opentele 不可用: " ++ env.opentele_error
        ++ "。请使用其他登录方式（选项1或2）")], accounts, false)
  else if env.path_exists = false then
    ([(false, "tdata 路径不存在: " ++ env.tdata_path)], accounts, false)
  else
    match env.load_tdesktop with
    | .error e => ([(false, "加载 tdata 失败: " ++ e)], accounts, false)
    | .ok tdaccs =>
      let run := import_loop env 0 tdaccs accounts
      (run.1, run.2.1, true)

/-! ### Helper lemmas: stripping and normalization -/

theorem dropWhile_self (p : α → Bool) (l : List α) :
    (l.dropWhile p).dropWhile p = l.dropWhile p := by
  induction l with
  | nil => rfl
  | cons c t ih =>
    by_cases h : p c
    · rw [List.dropWhile_cons_of_pos h]; exact ih
    · rw [List.dropWhile_cons_of_neg h, List.dropWhile_cons_of_neg h]

theorem lstripWS_idem (l : List Char) : lstripWS (lstripWS l) = lstripWS l :=
  dropWhile_self pyIsSpace l

theorem rstripWS_idem (l : List Char) : rstripWS (rstripWS l) = rstripWS l := by
  unfold rstripWS
  rw [List.reverse_reverse, lstripWS_idem]

theorem lstripWS_cons_of_neg (c : Char) (x : List Char)
    (hc : pyIsSpace c = false) : lstripWS (c :: x) = c :: x :=
  List.dropWhile_cons_of_neg (by simp [hc])

theorem length_lstripWS_le (l : List Char) :
    (lstripWS l).length ≤ l.length := by
  induction l with
  | nil => simp [lstripWS]
  | cons c t ih =>
    by_cases h : pyIsSpace c = true
    · rw [show lstripWS (c :: t) = lstripWS t from
        List.dropWhile_cons_of_pos h]
      exact Nat.le_trans ih (by simp)
    · rw [lstripWS_cons_of_neg c t (by simpa using h)]

theorem lstripWS_fixed_iff (l : List Char) (h : lstripWS l = l) :
    l = [] ∨ ∃ c t, l = c :: t ∧ pyIsSpace c = false := by
  cases l with
  | nil => exact Or.inl rfl
  | cons c t =>
    right
    refine ⟨c, t, rfl, ?_⟩
    by_contra hc
    have hc1 : pyIsSpace c = true := by
      cases h1 : pyIsSpace c
      · exact absurd h1 hc
      · rfl
    have h2 := h
    rw [show lstripWS (c :: t) = lstripWS t from
      List.dropWhile_cons_of_pos hc1] at h2
    have hlen : (lstripWS t).length ≤ t.length := length_lstripWS_le t
    rw [h2] at hlen
    simp at hlen

theorem rstripWS_head_neg (c : Char) (t : List Char)
    (hc : pyIsSpace c = false) :
    lstripWS (rstripWS (c :: t)) = rstripWS (c :: t) := by
  unfold rstripWS
  rw [show (c :: t).reverse = t.reverse ++ [c] from List.reverse_cons c t]
  unfold lstripWS
  rw [List.dropWhile_append]
  by_cases he : (t.reverse.dropWhile pyIsSpace).isEmpty = true
  · rw [if_pos he]
    rw [List.dropWhile_cons_of_neg (by simp [hc])]
    simp [hc]
  · rw [if_neg he]
    rw [List.reverse_append]
    simp [hc]

theorem rstripWS_fixed_of_lstrip_fixed (l : List Char) (h : lstripWS l = l) :
    lstripWS (rstripWS l) = rstripWS l := by
  rcases lstripWS_fixed_iff l h with h0 | ⟨c, t, rfl, hc⟩
  · subst h0; rfl
  · exact rstripWS_head_neg c t hc

theorem stripList_idem (l : List Char) :
    stripList (stripList l) = stripList l := by
  show rstripWS (lstripWS (rstripWS (lstripWS l))) = rstripWS (lstripWS l)
  rw [rstripWS_fixed_of_lstrip_fixed (lstripWS l) (lstripWS_idem l),
    rstripWS_idem]

theorem rstripWS_cons_of_neg (c : Char) (x : List Char)
    (hc : pyIsSpace c = false) (hx : rstripWS x = x) :
    rstripWS (c :: x) = c :: x := by
  have hrev : x.reverse.dropWhile pyIsSpace = x.reverse := by
    have h1 := congrArg List.reverse hx
    rwa [show (rstripWS x).reverse = x.reverse.dropWhile pyIsSpace by
      unfold rstripWS lstripWS; rw [List.reverse_reverse]] at h1
  cases x with
  | nil =>
    unfold rstripWS lstripWS
    simp [List.dropWhile_cons, hc]
  | cons a b =>
    unfold rstripWS lstripWS
    rw [show (c :: a :: b).reverse = (a :: b).reverse ++ [c] from
      List.reverse_cons c (a :: b)]
    rw [List.dropWhile_append, hrev]
    rw [if_neg (by simp)]
    rw [List.reverse_append, List.reverse_reverse]
    rfl

theorem rstripWS_stripList (l : List Char) :
    rstripWS (stripList l) = stripList l := by
  show rstripWS (rstripWS (lstripWS l)) = rstripWS (lstripWS l)
  rw [rstripWS_idem]

theorem stripList_plus_cons (l : List Char) :
    stripList ('+' :: stripList l) = '+' :: stripList l := by
  have hplus : pyIsSpace '+' = false := by decide
  have h1 : lstripWS ('+' :: stripList l) = '+' :: stripList l :=
    lstripWS_cons_of_neg _ _ hplus
  calc stripList ('+' :: stripList l)
      = rstripWS (lstripWS ('+' :: stripList l)) := rfl
    _ = rstripWS ('+' :: stripList l) := by rw [h1]
    _ = '+' :: stripList l :=
        rstripWS_cons_of_neg _ _ hplus (rstripWS_stripList l)

theorem normChars_idem (cs : List Char) :
    normChars (normChars cs) = normChars cs := by
  by_cases h : startsPlus (stripList cs) = true
  · have h1 : normChars cs = stripList cs := by simp [normChars, h]
    rw [h1]
    simp [normChars, stripList_idem, h]
  · have h0 : startsPlus (stripList cs) = false := by simpa using h
    have h1 : normChars cs = '+' :: stripList cs := by simp [normChars, h0]
    rw [h1]
    simp [normChars, stripList_plus_cons, startsPlus]

theorem lstripWS_append_allws (pre z : List Char)
    (hp : ∀ c ∈ pre, pyIsSpace c = true) :
    lstripWS (pre ++ z) = lstripWS z :=
  List.dropWhile_append_of_pos hp

theorem lstripWS_allws_nil (l : List Char)
    (h : ∀ c ∈ l, pyIsSpace c = true) : lstripWS l = [] := by
  have h1 : lstripWS (l ++ []) = lstripWS [] := lstripWS_append_allws l [] h
  simpa using h1

theorem rstripWS_append_allws (y post : List Char)
    (hp : ∀ c ∈ post, pyIsSpace c = true) :
    rstripWS (y ++ post) = rstripWS y := by
  unfold rstripWS
  rw [List.reverse_append]
  rw [lstripWS_append_allws post.reverse y.reverse
    (fun c hc => hp c (List.mem_reverse.mp hc))]

theorem stripList_surround (pre post x : List Char)
    (hpre : ∀ c ∈ pre, pyIsSpace c = true)
    (hpost : ∀ c ∈ post, pyIsSpace c = true) :
    stripList (pre ++ x ++ post) = stripList x := by
  have h1 : stripList (pre ++ x ++ post) = rstripWS (lstripWS (x ++ post)) := by
    show rstripWS (lstripWS ((pre ++ x) ++ post)) = _
    rw [List.append_assoc, lstripWS_append_allws pre (x ++ post) hpre]
  rw [h1]
  by_cases hx : (lstripWS x).isEmpty = true
  · have hx0 : lstripWS x = [] := by
      cases h2 : lstripWS x with
      | nil => rfl
      | cons a b => rw [h2] at hx; simp [List.isEmpty] at hx
    have h2 : lstripWS (x ++ post) = [] := by
      have hx1 : List.dropWhile pyIsSpace x = [] := hx0
      show List.dropWhile pyIsSpace (x ++ post) = []
      rw [List.dropWhile_append, hx1]
      simp only [List.isEmpty_nil, if_true]
      exact lstripWS_allws_nil post hpost
    rw [h2]
    show rstripWS [] = stripList x
    unfold stripList
    rw [hx0]
  · have hx2 : ¬ (List.dropWhile pyIsSpace x).isEmpty = true := hx
    have h2 : lstripWS (x ++ post) = lstripWS x ++ post := by
      show List.dropWhile pyIsSpace (x ++ post)
          = List.dropWhile pyIsSpace x ++ post
      rw [List.dropWhile_append, if_neg hx2]
    rw [h2, rstripWS_append_allws (lstripWS x) post hpost]
    rfl

theorem normChars_surround (pre post : List Char) (x : List Char)
    (hpre : ∀ c ∈ pre, pyIsSpace c = true)
    (hpost : ∀ c ∈ post, pyIsSpace c = true) :
    normChars (pre ++ x ++ post) = normChars x := by
  unfold normChars
  rw [stripList_surround pre post x hpre hpost]

theorem toList_mk (l : List Char) : (String.mk l).toList = l := rfl

theorem normalize_phone_toList (s : String) :
    (normalize_phone s).toList = normChars s.toList := rfl

/-! ### Helper lemmas: dictionaries -/

theorem dictGet_dictInsert_self {α : Type} (k : String) (v : α)
    (l : List (String × α)) : dictGet (dictInsert k v l) k = some v := by
  induction l with
  | nil => simp [dictInsert, dictGet]
  | cons p t ih =>
    by_cases h : p.1 = k
    · simp [dictInsert, dictGet, h]
    · simp [dictInsert, dictGet, h, ih]

theorem dictGet_dictInsert_ne {α : Type} (k k1 : String) (v : α)
    (l : List (String × α)) (h : k1 ≠ k) :
    dictGet (dictInsert k v l) k1 = dictGet l k1 := by
  have hk1 : ¬ k = k1 := fun h2 => h h2.symm
  induction l with
  | nil =>
    show (if k = k1 then some v else dictGet [] k1) = dictGet [] k1
    rw [if_neg hk1]
  | cons p t ih =>
    by_cases hp : p.1 = k
    · unfold dictInsert
      rw [if_pos hp]
      show (if k = k1 then some v else dictGet t k1)
          = (if p.1 = k1 then some p.2 else dictGet t k1)
      rw [if_neg hk1, if_neg (fun h2 => hk1 (hp.symm.trans h2))]
    · unfold dictInsert
      rw [if_neg hp]
      show (if p.1 = k1 then some p.2 else dictGet (dictInsert k v t) k1)
          = (if p.1 = k1 then some p.2 else dictGet t k1)
      rw [ih]

theorem dictGet_dictPop {α : Type} (l : List (String × α)) (k : String) :
    dictGet (dictPop l k) k = none := by
  induction l with
  | nil => rfl
  | cons p t ih =>
    by_cases h : p.1 = k
    · simpa [dictPop, List.filter, h] using ih
    · simpa [dictPop, List.filter, h, dictGet] using ih

/-! ### Helper lemmas: code extraction -/

theorem hasRun5_tail (c : Char) (t : List Char)
    (h : hasRun5 (c :: t) = false) : hasRun5 t = false := by
  unfold hasRun5 at h
  exact (Bool.or_eq_false_iff.mp h).2

theorem leadingDigits_small (l : List Char) (h : hasRun5 l = false) :
    ¬ 5 ≤ leadingDigits l := by
  cases l with
  | nil => simp [leadingDigits]
  | cons c t =>
    unfold hasRun5 at h
    have h1 := (Bool.or_eq_false_iff.mp h).1
    simpa using h1

theorem matchDigits56_none (l : List Char) (h : hasRun5 l = false) :
    matchDigits56 l = none := by
  unfold matchDigits56
  rw [if_neg (leadingDigits_small l h)]

theorem hasRun5_dropWhile (p : Char → Bool) (l : List Char)
    (h : hasRun5 l = false) : hasRun5 (l.dropWhile p) = false := by
  induction l with
  | nil => exact h
  | cons c t ih =>
    by_cases hc : p c = true
    · rw [List.dropWhile_cons_of_pos hc]
      exact ih (hasRun5_tail c t h)
    · rw [List.dropWhile_cons_of_neg (by simpa using hc)]
      exact h

theorem matchKeyword_hasRun5 (l rest : List Char)
    (hk : matchKeyword l = some rest) (h : hasRun5 l = false) :
    hasRun5 rest = false := by
  match l with
  | [] => simp [matchKeyword] at hk
  | [c1] => simp [matchKeyword] at hk
  | [c1, c2] => simp [matchKeyword] at hk
  | [c1, c2, c3] =>
    simp only [matchKeyword] at hk
    split_ifs at hk
    cases hk
    rfl
  | c1 :: c2 :: c3 :: c4 :: r =>
    simp only [matchKeyword] at hk
    split_ifs at hk with h1 h2
    · cases hk
      exact hasRun5_tail _ _ (hasRun5_tail _ _ (hasRun5_tail _ _
        (hasRun5_tail _ _ h)))
    · cases hk
      exact hasRun5_tail _ _ (hasRun5_tail _ _ (hasRun5_tail _ _ h))

theorem matchLabeledAt_none (l : List Char) (h : hasRun5 l = false) :
    matchLabeledAt l = none := by
  unfold matchLabeledAt
  cases hk : matchKeyword l with
  | none => rfl
  | some rest =>
    exact matchDigits56_none _
      (hasRun5_dropWhile isSepChar rest (matchKeyword_hasRun5 l rest hk h))

theorem searchLabeled_none (l : List Char) (h : hasRun5 l = false) :
    searchLabeled l = none := by
  induction l with
  | nil => rfl
  | cons c t ih =>
    unfold searchLabeled
    rw [matchLabeledAt_none (c :: t) h]
    exact ih (hasRun5_tail c t h)

theorem searchBare_none (l : List Char) (h : hasRun5 l = false) :
    searchBare l = none := by
  induction l with
  | nil => rfl
  | cons c t ih =>
    unfold searchBare
    rw [matchDigits56_none (c :: t) h]
    exact ih (hasRun5_tail c t h)

/-! ### Helper lemmas: dispatch loops -/

theorem send_targets_loop_map (env : NetEnv) (cl message : String)
    (targets : List String) :
    send_targets_loop env cl message targets
      = targets.map (fun t => (t, (env.send_message cl t message).isOk)) := by
  induction targets with
  | nil => rfl
  | cons t rest ih =>
    unfold send_targets_loop
    cases h : env.send_message cl t message with
    | ok u => cases u; simp [ih, h, Except.isOk, Except.toBool]
    | error e => simp [ih, h, Except.isOk, Except.toBool]

theorem sendLoop_all_true (send : String → String → Bool × String)
    (accounts : List (String × TelegramAccount)) (selected : List String)
    (targets : List String) (i : Nat) :
    assignmentOf (sendLoop (fun _ => true) send accounts selected i targets)
      = (targets.enumFrom i).map
          (fun p => (selected.getD (p.1 % selected.length) "", p.2)) := by
  induction targets generalizing i with
  | nil => rfl
  | cons t rest ih =>
    unfold sendLoop
    simp only [if_pos rfl]
    rw [if_pos trivial]
    unfold assignmentOf at ih ⊢
    simp only [List.map_cons, List.enumFrom]
    rw [ih (i + 1)]

/-! ### Helper lemmas: store loading -/

theorem loadEntries_partial (p e : String)
    (rest : List (String × Except String TelegramAccount)) :
    ∀ (pre : List (String × TelegramAccount))
      (acc : List (String × TelegramAccount)),
      loadEntries (pre.map (fun x => (x.1, Except.ok x.2))
          ++ (p, Except.error e) :: rest) acc
        = (pre.foldl (fun b x => dictInsert x.1 x.2 b) acc,
            some ("加载账号失败: " ++ e)) := by
  intro pre
  induction pre with
  | nil => intro acc; rfl
  | cons q t ih =>
    intro acc
    simp only [List.map_cons, List.cons_append, List.foldl_cons]
    rw [show loadEntries ((q.1, Except.ok q.2)
        :: (t.map (fun x => (x.1, Except.ok x.2)) ++ (p, Except.error e) :: rest)) acc
      = loadEntries (t.map (fun x => (x.1, Except.ok x.2))
          ++ (p, Except.error e) :: rest) (dictInsert q.1 q.2 acc) from rfl]
    exact ih (dictInsert q.1 q.2 acc)

/-! ### Claim C1 -/

/-- A stored account whose client is not cached. -/
def acctC1 : TelegramAccount :=
  { phone := "+15550001", session_file := "telegram_sessions/15550001" }

/-- An environment in which the connect call raises. -/
def envC1bad : NetEnv :=
  { is_connected := fun _ => false
    connect := fun _ => Except.error "ConnectionError: network is unreachable"
    is_user_authorized := fun _ => Except.ok false
    send_message := fun _ _ _ => Except.ok () }

/-- Manager state with one stored account and an empty client cache. -/
def stC1 : ManagerState :=
  { accounts := [("+15550001", acctC1)], clients := [] }

/-- Claim C1, counterexample: with a stored account, an empty client
cache, and a `connect` call that raises, `send_from_account` does not
return a `(success, message)` tuple — the exception raised while
resolving the client propagates to the caller, because the `get_client`
call sits outside the try/except of `send_from_account`. -/
theorem C1_counterexample :
    send_from_account envC1bad stC1 "+15550001" "@target" "hello"
      = Except.error "ConnectionError: network is unreachable" := by
  rfl

/-- Claim C1 (amended): whenever resolving the client does not itself
raise, `send_from_account` returns a `(success, message)` tuple — in
particular any exception raised by the forwarded send call is translated
into a `(false, reason)` tuple; but an exception raised while resolving
(connecting/reconnecting) the client propagates to the caller. -/
theorem C1_send_exceptions_translated (env : NetEnv) (st : ManagerState)
    (phone target message : String) :
    (∀ r, get_client env st phone = Except.ok r →
      (send_from_account env st phone target message).isOk = true)
    ∧ (∀ cl st1 e, get_client env st phone = Except.ok (some cl, st1) →
        env.send_message cl target message = Except.error e →
        send_from_account env st phone target message
          = Except.ok ((false, "[" ++ phone ++ "] 发送失败: " ++ e), st1)) := by
  constructor
  · rintro ⟨ocl, st1⟩ hres
    cases ocl with
    | none =>
      simp only [send_from_account, hres]
      rfl
    | some cl =>
      cases hs : env.send_message cl target message with
      | ok u =>
        simp only [send_from_account, hres, hs]
        rfl
      | error e =>
        simp only [send_from_account, hres, hs]
        rfl
  · intro cl st1 e hres hsend
    simp [send_from_account, hres, hsend]

/-- An environment with a cached, connected client whose send call
raises a flood-wait error. -/
def envC1ok : NetEnv :=
  { is_connected := fun _ => true
    connect := fun _ => Except.ok ()
    is_user_authorized := fun _ => Except.ok true
    send_message := fun _ _ _ => Except.error "FloodWaitError: wait of 30 seconds" }

/-- Manager state for the C1 witness: the client for `+15550001` is cached. -/
def stC1ok : ManagerState := { accounts := [], clients := ["+15550001"] }

/-- Witness for C1: at a concrete environment whose send call raises,
the resolution succeeds and the exception is translated into a failure
tuple. -/
theorem C1_witness :
    (send_from_account envC1ok stC1ok "+15550001" "@t" "hi").isOk = true
    ∧ send_from_account envC1ok stC1ok "+15550001" "@t" "hi"
        = Except.ok ((false, "[" ++ "+15550001" ++ "] 发送失败: "
            ++ "FloodWaitError: wait of 30 seconds"), stC1ok) :=
  ⟨(C1_send_exceptions_translated envC1ok stC1ok "+15550001" "@t" "hi").1
      (some "+15550001", stC1ok) rfl,
    (C1_send_exceptions_translated envC1ok stC1ok "+15550001" "@t" "hi").2
      "+15550001" stC1ok "FloodWaitError: wait of 30 seconds" rfl rfl⟩

/-! ### Claim C2 -/

/-- Claim C2: with three enumerated accounts where the 2nd conversion
raises and the 1st and 3rd convert, connect and authorize cleanly,
`import_from_tdata` records one failure entry carrying the exception
text at position 2, still processes the remaining accounts (the result
list has length 3 with exactly one failure), and accounts 1 and 3 are
present in the store afterward. -/
theorem C2_import_partial_failure (env : ImportEnv)
    (accounts0 : List (String × TelegramAccount))
    (a0 a1 a2 : TDAccount) (e : String) (me0 me2 : Me) (p0 p2 : String)
    (hav : env.opentele_available = true)
    (hpath : env.path_exists = true)
    (hload : env.load_tdesktop = Except.ok [a0, a1, a2])
    (hf1 : env.fromTDesktop 1 = Except.error e)
    (hf0 : env.fromTDesktop 0 = Except.ok ())
    (hc0 : env.connect 0 = Except.ok ())
    (ha0 : env.is_user_authorized 0 = Except.ok true)
    (hm0 : env.get_me 0 = Except.ok me0)
    (hd0 : env.disconnect 0 = Except.ok ())
    (hf2 : env.fromTDesktop 2 = Except.ok ())
    (hc2 : env.connect 2 = Except.ok ())
    (ha2 : env.is_user_authorized 2 = Except.ok true)
    (hm2 : env.get_me 2 = Except.ok me2)
    (hd2 : env.disconnect 2 = Except.ok ())
    (hp0 : me0.phone = some p0) (hp2 : me2.phone = some p2) :
    (import_from_tdata env accounts0).1.length = 3
    ∧ ((import_from_tdata env accounts0).1.filter
        (fun r => r.1 = false)).length = 1
    ∧ (import_from_tdata env accounts0).1.getD 1 (true, "")
        = (false, "导入账号 2 失败: " ++ e)
    ∧ (dictGet (import_from_tdata env accounts0).2.1 ("+" ++ p0)).isSome = true
    ∧ (dictGet (import_from_tdata env accounts0).2.1 ("+" ++ p2)).isSome = true := by
  have hph0 : importPhoneOf me0 = "+" ++ p0 := by
    unfold importPhoneOf
    rw [hp0]
  have hph2 : importPhoneOf me2 = "+" ++ p2 := by
    unfold importPhoneOf
    rw [hp2]
  have h0 : import_one env 0 a0 accounts0
      = ((true, "导入成功: " ++ (importAccountOf me0 a0.UserId env.now).name
            ++ " (@" ++ (importAccountOf me0 a0.UserId env.now).username
            ++ ") - " ++ ("+" ++ p0)),
          dictInsert ("+" ++ p0) (importAccountOf me0 a0.UserId env.now)
            accounts0,
          [0]) := by
    unfold import_one
    rw [hf0, hc0, ha0, hm0, hd0]
    simp only [importAccountOf, hph0]
  have h1 : ∀ X, import_one env 1 a1 X = (importFailMsg 1 e, X, []) := by
    intro X
    unfold import_one
    rw [hf1]
  have h2 : ∀ X, import_one env 2 a2 X
      = ((true, "导入成功: " ++ (importAccountOf me2 a2.UserId env.now).name
            ++ " (@" ++ (importAccountOf me2 a2.UserId env.now).username
            ++ ") - " ++ ("+" ++ p2)),
          dictInsert ("+" ++ p2) (importAccountOf me2 a2.UserId env.now) X,
          [2]) := by
    intro X
    unfold import_one
    rw [hf2, hc2, ha2, hm2, hd2]
    simp only [importAccountOf, hph2]
  have key : import_from_tdata env accounts0
      = ([(true, "导入成功: " ++ (importAccountOf me0 a0.UserId env.now).name
            ++ " (@" ++ (importAccountOf me0 a0.UserId env.now).username
            ++ ") - " ++ ("+" ++ p0)),
          importFailMsg 1 e,
          (true, "导入成功: " ++ (importAccountOf me2 a2.UserId env.now).name
            ++ " (@" ++ (importAccountOf me2 a2.UserId env.now).username
            ++ ") - " ++ ("+" ++ p2))],
          dictInsert ("+" ++ p2) (importAccountOf me2 a2.UserId env.now)
            (dictInsert ("+" ++ p0) (importAccountOf me0 a0.UserId env.now)
              accounts0),
          true) := by
    unfold import_from_tdata
    rw [hav, hpath, hload]
    rw [if_neg (show ¬ (true = false) by decide)]
    rw [if_neg (show ¬ (true = false) by decide)]
    simp only [import_loop, h0, h1, h2]
  refine ⟨?_, ?_, ?_, ?_, ?_⟩
  · rw [key]
    rfl
  · rw [key]
    simp [importFailMsg]
  · rw [key]
    rfl
  · rw [key]
    by_cases heq : ("+" ++ p0 : String) = "+" ++ p2
    · rw [heq, dictGet_dictInsert_self]
      rfl
    · rw [dictGet_dictInsert_ne _ _ _ _ heq, dictGet_dictInsert_self]
      rfl
  · rw [key, dictGet_dictInsert_self]
    rfl

/-- First imported profile for the C2 witness. -/
def meW0 : Me :=
  { phone := some "15550001", id := 11, first_name := some "Ann"
    last_name := none, username := some "ann" }

/-- Third imported profile for the C2 witness. -/
def meW2 : Me :=
  { phone := some "15550002", id := 22, first_name := some "Bob"
    last_name := none, username := some "bob" }

/-- A concrete import environment for the C2 witness: three accounts,
conversion of the second raises, the first and third authorize. -/
def envC2 : ImportEnv :=
  { opentele_available := true
    opentele_error := ""
    tdata_path := "tdata"
    path_exists := true
    load_tdesktop := Except.ok [⟨11⟩, ⟨12⟩, ⟨22⟩]
    fromTDesktop := fun i =>
      if i = 1 then Except.error "AttributeError: corrupt map file"
      else Except.ok ()
    connect := fun _ => Except.ok ()
    is_user_authorized := fun _ => Except.ok true
    get_me := fun i => if i = 0 then Except.ok meW0 else Except.ok meW2
    disconnect := fun _ => Except.ok ()
    now := "2026-01-01T00:00:00" }

/-- Witness for C2: the scenario of the claim at a concrete environment. -/
theorem C2_witness :
    (import_from_tdata envC2 []).1.length = 3
    ∧ ((import_from_tdata envC2 []).1.filter
        (fun r => r.1 = false)).length = 1
    ∧ (import_from_tdata envC2 []).1.getD 1 (true, "")
        = (false, "导入账号 2 失败: " ++ "AttributeError: corrupt map file")
    ∧ (dictGet (import_from_tdata envC2 []).2.1 ("+" ++ "15550001")).isSome
        = true
    ∧ (dictGet (import_from_tdata envC2 []).2.1 ("+" ++ "15550002")).isSome
        = true :=
  C2_import_partial_failure envC2 [] ⟨11⟩ ⟨12⟩ ⟨22⟩
    "AttributeError: corrupt map file" meW0 meW2 "15550001" "15550002"
    rfl rfl rfl rfl rfl rfl rfl rfl rfl rfl rfl rfl rfl rfl rfl rfl

/-! ### Claim C3 -/

/-- Claim C3: in the round-robin dispatch variant, for every flat target
list and non-empty selected account list (and no cancellation), target at
index `i` is sent via account at index `i mod len(selected)`,
sequentially over the target list. -/
theorem C3_round_robin_assignment (send : String → String → Bool × String)
    (accounts : List (String × TelegramAccount))
    (selected targets : List String) (hsel : selected ≠ []) :
    assignmentOf (do_send (fun _ => true) send accounts selected targets)
      = targets.enum.map
          (fun p => (selected.getD (p.1 % selected.length) "", p.2)) := by
  unfold do_send
  exact sendLoop_all_true send accounts selected targets 0

/-- Witness for C3: for accounts `[A, B]` and targets `[t1, t2, t3]` the
assignment is `A:t1, B:t2, A:t3`. -/
theorem C3_witness :
    (["A", "B"] : List String) ≠ []
    ∧ assignmentOf (do_send (fun _ => true) (fun _ _ => (true, "")) []
        ["A", "B"] ["t1", "t2", "t3"])
      = [("A", "t1"), ("B", "t2"), ("A", "t3")] :=
  ⟨by decide,
    (C3_round_robin_assignment (fun _ _ => (true, "")) [] ["A", "B"]
        ["t1", "t2", "t3"] (by decide)).trans (by rfl)⟩

/-! ### Claim C4 -/

/-- Claim C4: in a round-robin dispatch of 5 queued sends, the cancel
flag is read exactly once per loop iteration before the send of that
iteration, and a started send always completes and is recorded.  If the
flag (a one-way cancel: once read false it stays false) is still set for
the first two reads and is clear by the fourth read — i.e. it is cleared
by `_stop_send` at some point after the 2nd send completes and before the
4th check —, then between 2 and 3 sends complete: never 0, never 5. -/
theorem C4_cancel_bounds (flag : Nat → Bool)
    (send : String → String → Bool × String)
    (accounts : List (String × TelegramAccount)) (selected : List String)
    (t1 t2 t3 t4 t5 : String) (hsel : selected ≠ [])
    (hmono : ∀ i, flag (i + 1) = true → flag i = true)
    (h0 : flag 0 = true) (h1 : flag 1 = true) (h3 : flag 3 = false) :
    2 ≤ (do_send flag send accounts selected [t1, t2, t3, t4, t5]).length
    ∧ (do_send flag send accounts selected [t1, t2, t3, t4, t5]).length ≤ 3 := by
  unfold do_send
  cases h2 : flag 2 with
  | true =>
    simp only [sendLoop, h0, h1, h2, h3, if_true, if_false]
    constructor <;> simp
  | false =>
    simp only [sendLoop, h0, h1, h2, if_true, if_false]
    constructor <;> simp

/-- Witness for C4: a concrete flag cleared between the 2nd send's
completion and the 3rd check yields exactly 2 completed sends. -/
theorem C4_witness :
    2 ≤ (do_send (fun i => decide (i < 2)) (fun _ _ => (true, "")) [] ["A"]
        ["a", "b", "c", "d", "e"]).length
    ∧ (do_send (fun i => decide (i < 2)) (fun _ _ => (true, "")) [] ["A"]
        ["a", "b", "c", "d", "e"]).length ≤ 3 :=
  C4_cancel_bounds (fun i => decide (i < 2)) (fun _ _ => (true, "")) []
    ["A"] "a" "b" "c" "d" "e" (by decide)
    (fun i h => by
      simp only [decide_eq_true_iff] at h ⊢
      omega)
    (by decide) (by decide) (by decide)

/-! ### Claim C5 -/

/-- Claim C5: verification-code extraction scans the body against the
ordered pattern list — the labeled pattern first, then a bare 5–6 digit
run — returning the first match of the first pattern that matches:
body `"your code: 48291"` yields `"48291"`; a body containing both an
unlabeled and a labeled number yields the labeled one; and a body with
no run of 5 consecutive digits (so in particular no 5–6 digit run)
yields the distinct "未找到验证码" (code-not-found) failure. -/
theorem C5_code_extraction :
    fetch_code_from_url (Except.ok (200, "your code: 48291"))
      = (some "48291", none)
    ∧ fetch_code_from_url (Except.ok (200, "id 777777 your code: 48291"))
      = (some "48291", none)
    ∧ searchBare "id 777777 your code: 48291".toList = some "777777"
    ∧ (∀ text : String, hasRun5 text.toList = false →
        fetch_code_from_url (Except.ok (200, text))
          = (none, some "未找到验证码")) := by
  refine ⟨by rfl, by rfl, by rfl, ?_⟩
  intro text h
  show (if (200 : Nat) ≠ 200 then (none, some ("HTTP " ++ toString (200 : Nat)))
      else extract_code text) = (none, some "未找到验证码")
  rw [if_neg (by simp)]
  unfold extract_code
  rw [searchLabeled_none text.toList h, searchBare_none text.toList h]

/-- Witness for C5: a concrete body with no 5-digit run yields the
code-not-found failure. -/
theorem C5_witness :
    hasRun5 "hello 1234 and 99".toList = false
    ∧ fetch_code_from_url (Except.ok (200, "hello 1234 and 99"))
      = (none, some "未找到验证码") :=
  ⟨by decide,
    C5_code_extraction.2.2.2 "hello 1234 and 99" (by decide)⟩

/-! ### Claim C6 -/

/-- A well-formed stored record, for the C6 counterexample. -/
def acctC6 : TelegramAccount :=
  { phone := "+15551000", session_file := "telegram_sessions/15551000" }

/-- A durable file whose content is corrupt: it parses as a top-level
dict, its first record is well-formed, but constructing the second
record raises (as `TelegramAccount(**info)` does on a malformed entry). -/
def fileC6 : Option (Except String (List (String × Except String TelegramAccount))) :=
  some (Except.ok
    [("+15551000", Except.ok acctC6),
      ("+15551001",
        Except.error "TypeError: missing required argument session_file")])

/-- Claim C6, counterexample: loading this corrupt file reports the
failure but does **not** yield an empty store — the record inserted
before the malformed one is kept, because the fill loop runs inside the
same try/except that guards the parse. -/
theorem C6_counterexample :
    load_accounts fileC6
      = ([("+15551000", acctC6)],
          some ("加载账号失败: "
            ++ "TypeError: missing required argument session_file"))
    ∧ ([("+15551000", acctC6)] : List (String × TelegramAccount)) ≠ [] := by
  constructor
  · rfl
  · simp

/-- Claim C6 (amended): a missing durable file yields an empty store with
no error; a file whose content fails to parse as a whole is reported and
yields an empty store; and a file that parses but whose k-th record is
malformed is reported and yields exactly the records preceding the
malformed one (an empty store only when the malformed record is first). -/
theorem C6_load_missing_or_corrupt :
    load_accounts none = ([], none)
    ∧ (∀ e, load_accounts (some (Except.error e))
        = ([], some ("加载账号失败: " ++ e)))
    ∧ (∀ (pre : List (String × TelegramAccount)) (p e : String)
        (rest : List (String × Except String TelegramAccount)),
        load_accounts (some (Except.ok
            (pre.map (fun x => (x.1, Except.ok x.2))
              ++ (p, Except.error e) :: rest)))
          = (pre.foldl (fun b x => dictInsert x.1 x.2 b) [],
              some ("加载账号失败: " ++ e))) := by
  refine ⟨rfl, fun e => rfl, ?_⟩
  intro pre p e rest
  exact loadEntries_partial p e rest pre []

/-! ### Claim C7 -/

/-- Claim C7: phone normalization is idempotent —
`normalize(normalize(x)) = normalize(x)` for every string — and inputs
differing only by surrounding whitespace or a missing leading `+`
resolve to the same normalized form, e.g.
`normalize("+1 555") = normalize("1 555")`. -/
theorem C7_normalize_phone_idempotent :
    (∀ x : String, normalize_phone (normalize_phone x) = normalize_phone x)
    ∧ normalize_phone "+1 555" = normalize_phone "1 555"
    ∧ (∀ (pre post : List Char) (x : String),
        (∀ c ∈ pre, pyIsSpace c = true) → (∀ c ∈ post, pyIsSpace c = true) →
        normalize_phone (String.mk (pre ++ x.toList ++ post))
          = normalize_phone x) := by
  refine ⟨?_, by rfl, ?_⟩
  · intro x
    show String.mk (normChars (normalize_phone x).toList) = _
    rw [normalize_phone_toList, normChars_idem]
    rfl
  · intro pre post x hpre hpost
    show String.mk (normChars (String.mk (pre ++ x.toList ++ post)).toList)
        = String.mk (normChars x.toList)
    rw [toList_mk, normChars_surround pre post x.toList hpre hpost]

/-- Witness for C7: idempotence and whitespace-insensitivity at concrete
inputs. -/
theorem C7_witness :
    normalize_phone (normalize_phone "  861381234  ")
      = normalize_phone "  861381234  "
    ∧ normalize_phone (String.mk ([' ', '\t'] ++ "1 555".toList ++ ['\n']))
      = normalize_phone "1 555" :=
  ⟨C7_normalize_phone_idempotent.1 "  861381234  ",
    C7_normalize_phone_idempotent.2.2 [' ', '\t'] ['\n'] "1 555"
      (by decide) (by decide)⟩

/-! ### Claim C8 -/

/-- Claim C8: in a fan-out call with a resolved client, the result list
has one `(target, success)` entry per target in input order, each entry's
success reflecting only that target's own send outcome — so one target's
failure never prevents the subsequent targets from being attempted. -/
theorem C8_fanout_isolation (env : NetEnv) (st : ManagerState)
    (phone message : String) (targets : List String)
    (cl : String) (st1 : ManagerState)
    (h : get_client env st phone = Except.ok (some cl, st1)) :
    send_to_multiple env st phone targets message
      = Except.ok
          (targets.map (fun t => (t, (env.send_message cl t message).isOk)),
            st1) := by
  simp only [send_to_multiple, h]
  rw [send_targets_loop_map]

/-- A network environment for the C8 witness: the client for `+2000` is
cached and connected, and the send to target `B` raises while the sends
to `A`, `C` and `D` succeed. -/
def envC8 : NetEnv :=
  { is_connected := fun _ => true
    connect := fun _ => Except.ok ()
    is_user_authorized := fun _ => Except.ok true
    send_message := fun _ t _ =>
      if t = "B" then Except.error "ChatWriteForbiddenError" else Except.ok () }

/-- Manager state for the C8 witness. -/
def stC8 : ManagerState := { accounts := [], clients := ["+2000"] }

/-- Witness for C8: with target `B` failing, all four targets are
attempted and reported in order. -/
theorem C8_witness :
    send_to_multiple envC8 stC8 "+2000" ["A", "B", "C", "D"] "hi"
      = Except.ok ([("A", true), ("B", false), ("C", true), ("D", true)],
          stC8) :=
  (C8_fanout_isolation envC8 stC8 "+2000" "hi" ["A", "B", "C", "D"]
      "+2000" stC8 rfl).trans (by rfl)

/-! ### Claim C9 -/

/-- The stored account of the C9 scenarios. -/
def acctC9 : TelegramAccount :=
  { phone := "+3000", session_file := "telegram_sessions/3000" }

/-- A file system in which the session artifact exists but deleting it
raises a permission error. -/
def fsC9bad : RemoveFS :=
  { exists_file := fun _ => true
    remove := fun _ => Except.error "PermissionError: file is locked" }

/-- Claim C9, counterexample: when deleting the existing session
artifact fails, the failure is **not** non-fatal — the `os.remove`
exception propagates to the caller and the store save never runs (the
in-memory record removal has already happened). -/
theorem C9_counterexample :
    (remove_account fsC9bad [("+3000", acctC9)] "+3000").exn
      = some "PermissionError: file is locked"
    ∧ (remove_account fsC9bad [("+3000", acctC9)] "+3000").saved = false := by
  constructor <;> rfl

/-- Claim C9 (amended): deleting a stored account always removes its
record from the in-memory map; a missing session artifact is tolerated
(no deletion attempted, store saved); when the artifact exists and its
deletion succeeds, the artifact is deleted and the store saved; but when
deletion of an existing artifact raises, the exception propagates and the
store save is skipped. -/
theorem C9_remove_account_behavior (fs : RemoveFS)
    (accounts : List (String × TelegramAccount)) (phone : String)
    (acc : TelegramAccount)
    (h : dictGet accounts (normalize_phone phone) = some acc) :
    dictGet (remove_account fs accounts phone).accounts
        (normalize_phone phone) = none
    ∧ (fs.exists_file (acc.session_file ++ ".session") = false →
        remove_account fs accounts phone
          = ⟨dictPop accounts (normalize_phone phone), [], true, none⟩)
    ∧ (fs.exists_file (acc.session_file ++ ".session") = true →
        fs.remove (acc.session_file ++ ".session") = Except.ok () →
        remove_account fs accounts phone
          = ⟨dictPop accounts (normalize_phone phone),
              [acc.session_file ++ ".session"], true, none⟩)
    ∧ (∀ e, fs.exists_file (acc.session_file ++ ".session") = true →
        fs.remove (acc.session_file ++ ".session") = Except.error e →
        remove_account fs accounts phone
          = ⟨dictPop accounts (normalize_phone phone),
              [acc.session_file ++ ".session"], false, some e⟩) := by
  refine ⟨?_, ?_, ?_, ?_⟩
  · cases hex : fs.exists_file (acc.session_file ++ ".session") with
    | true =>
      cases hr : fs.remove (acc.session_file ++ ".session") with
      | ok u => simp [remove_account, h, hex, hr, dictGet_dictPop]
      | error e => simp [remove_account, h, hex, hr, dictGet_dictPop]
    | false => simp [remove_account, h, hex, dictGet_dictPop]
  · intro he
    simp [remove_account, h, he]
  · intro he hr
    simp [remove_account, h, he, hr]
  · intro e he hr
    simp [remove_account, h, he, hr]

/-- A file system in which the session artifact exists and deleting it
succeeds. -/
def fsC9ok : RemoveFS :=
  { exists_file := fun _ => true
    remove := fun _ => Except.ok () }

/-- Witness for C9: at a concrete store and file system the record is
removed, the artifact is deleted and the store is saved. -/
theorem C9_witness :
    dictGet (remove_account fsC9ok [("+3000", acctC9)] "+3000").accounts
        (normalize_phone "+3000") = none
    ∧ remove_account fsC9ok [("+3000", acctC9)] "+3000"
      = ⟨[], ["telegram_sessions/3000.session"], true, none⟩ :=
  ⟨(C9_remove_account_behavior fsC9ok [("+3000", acctC9)] "+3000" acctC9
      rfl).1,
    ((C9_remove_account_behavior fsC9ok [("+3000", acctC9)] "+3000" acctC9
        rfl).2.2.1 rfl rfl).trans (by rfl)⟩

/-! ### Claim C10 -/

/-- Claim C10: calling `remove_account` with a phone whose normalized
form is not a key of the store is a no-op — the in-memory account map is
unchanged, no `os.remove` is called, no save is triggered, and nothing
propagates. -/
theorem C10_remove_absent_noop (fs : RemoveFS)
    (accounts : List (String × TelegramAccount)) (phone : String)
    (h : dictGet accounts (normalize_phone phone) = none) :
    remove_account fs accounts phone = ⟨accounts, [], false, none⟩ := by
  simp [remove_account, h]

/-- Witness for C10: removing a phone that is not in the store leaves
everything untouched. -/
theorem C10_witness :
    remove_account fsC9bad [("+3000", acctC9)] "+4000"
      = ⟨[("+3000", acctC9)], [], false, none⟩ :=
  C10_remove_absent_noop fsC9bad [("+3000", acctC9)] "+4000" rfl

end TGMS
